import Mathlib

/-!
Shallow embedding of the `donkey_see_donkey_do` event model
(`donkey_see_donkey_do/events.py`) and of its simplification pipeline
(`donkey_see_donkey_do/simplify.py`).

Modelling conventions, used throughout:

* `datetime` instants are modelled as rational numbers of seconds (`Time := ℚ`);
  `(t2 - t1).total_seconds()` becomes plain subtraction, and the float default
  thresholds (`0.2`, `0.4`, `0.15`, `1`, `3`) are the decimal rationals they denote.
* `pin_the_tail.location.Point` carries integer screen coordinates; the source's
  `first.location.distance_to(second.location) > max_pixels` (a Euclidean-distance
  comparison against the nonnegative integer `max_pixels`) is modelled, square roots
  avoided, as the equivalent `distSq > max_pixels ^ 2` on integers.
* screenshots (`PIL.Image.Image` or `pathlib.Path`) and special keys are opaque
  payloads: the merge logic never inspects them, only copies them around, so they
  are modelled by opaque tags with decidable equality.
* pydantic models are modelled as structures with value equality; methods that
  mutate `self` (`update_with`) are modelled as pure functions returning the
  updated value, and — for the non-mutation claim — a second, store-passing
  rendering of each merger makes the object identities, `.copy()` allocations and
  in-place `update_with` writes of the Python code explicit.
-/

namespace DonkeySee

/-- `datetime` instants, as rational seconds. -/
abbrev Time := ℚ

/-- `pin_the_tail.location.Point`: integer screen coordinates. -/
structure Point where
  x : ℤ
  y : ℤ
deriving DecidableEq, Repr

/-- Square of the Euclidean distance `Point.distance_to`.  The source compares
`p.distance_to(q) > max_pixels` with `max_pixels : int` nonnegative; this is
equivalent to `distSq p q > max_pixels ^ 2`. -/
def distSq (p q : Point) : ℤ :=
  (p.x - q.x) ^ 2 + (p.y - q.y) ^ 2

/-- `pin_the_tail.interaction.MouseButton`. -/
inductive MouseButton where
  | left
  | middle
  | right
deriving DecidableEq, Repr

/-- `MouseButtonEvent.action` is a string validated to be one of
`"press"`, `"release"`, `"click"` (validator `action_is_valid_value`). -/
inductive MouseAction where
  | press
  | release
  | click
deriving DecidableEq, Repr

/-- `KeyboardEvent.action : Literal["press", "release"]`. -/
inductive KeyAction where
  | press
  | release
deriving DecidableEq, Repr

/-- `KeyType = Union[str, SpecialKey]`; special keys are opaque tags. -/
inductive KeyType where
  | char (c : Char)
  | special (code : ℕ)
deriving DecidableEq, Repr

/-- A screenshot reference: an in-memory image or a path, both opaque payloads. -/
inductive Screenshot where
  | image (data : ℕ)
  | path (name : ℕ)
deriving DecidableEq, Repr

/-- `PointChange` (frozen dataclass): a scroll delta. -/
structure PointChange where
  dx : ℤ
  dy : ℤ
deriving DecidableEq, Repr

/-- `StateSnapshotEvent`: `device="state"`, required screenshot, mouse location. -/
structure StateSnapshotEvent where
  timestamp : Time
  screenshot : Screenshot
  location : Point
deriving DecidableEq, Repr

/-- `MouseMoveEvent`: `action="move"`. -/
structure MouseMoveEvent where
  timestamp : Time
  screenshot : Option Screenshot
  location : Point
deriving DecidableEq, Repr

/-- `MouseButtonEvent`: a mouse button `action` (press/release/click) at `location`. -/
structure MouseButtonEvent where
  timestamp : Time
  screenshot : Option Screenshot
  location : Point
  action : MouseAction
  button : MouseButton
deriving DecidableEq, Repr

/-- `ClickEvent` (subclass of `MouseButtonEvent` with `action` pinned to
`"click"`): adds `n_clicks` (a `PositiveInt` defaulting to 1) and an optional
`last_timestamp`. -/
structure ClickEvent where
  timestamp : Time
  screenshot : Option Screenshot
  location : Point
  button : MouseButton
  n_clicks : ℕ
  last_timestamp : Option Time
deriving DecidableEq, Repr

/-- `ScrollEvent`: `action="scroll"`, a `scroll` delta and optional `last_timestamp`. -/
structure ScrollEvent where
  timestamp : Time
  screenshot : Option Screenshot
  location : Point
  scroll : PointChange
  last_timestamp : Option Time
deriving DecidableEq, Repr

/-- `KeyboardEvent`: a key press or release. -/
structure KeyboardEvent where
  timestamp : Time
  screenshot : Option Screenshot
  action : KeyAction
  key : KeyType
deriving DecidableEq, Repr

/-- `WriteEvent`: `action="write"`, an ordered `keys` sequence, optional
`last_timestamp`. -/
structure WriteEvent where
  timestamp : Time
  screenshot : Option Screenshot
  keys : List KeyType
  last_timestamp : Option Time
deriving DecidableEq, Repr

/-- `RealEventType`: the tagged union of the concrete event classes. -/
inductive Event where
  | stateSnapshot (e : StateSnapshotEvent)
  | mouseMove (e : MouseMoveEvent)
  | mouseButton (e : MouseButtonEvent)
  | click (e : ClickEvent)
  | scroll (e : ScrollEvent)
  | keyboard (e : KeyboardEvent)
  | write (e : WriteEvent)
deriving DecidableEq, Repr

/-- `BaseEvent.timestamp`, read off any variant. -/
def Event.timestamp : Event → Time
  | .stateSnapshot e => e.timestamp
  | .mouseMove e => e.timestamp
  | .mouseButton e => e.timestamp
  | .click e => e.timestamp
  | .scroll e => e.timestamp
  | .keyboard e => e.timestamp
  | .write e => e.timestamp

/-- `ClickEvent.last_timestamp_or_first`: `last_timestamp or timestamp`
(a `datetime` is always truthy, so `or` is `Option.getD`). -/
def ClickEvent.last_timestamp_or_first (e : ClickEvent) : Time :=
  e.last_timestamp.getD e.timestamp

/-- `ScrollEvent.last_timestamp_or_first`. -/
def ScrollEvent.last_timestamp_or_first (e : ScrollEvent) : Time :=
  e.last_timestamp.getD e.timestamp

/-- `WriteEvent.last_timestamp_or_first`. -/
def WriteEvent.last_timestamp_or_first (e : WriteEvent) : Time :=
  e.last_timestamp.getD e.timestamp

/-- `BaseEvent.last_timestamp_or_first` for events without a `last_timestamp`
field returns `timestamp`; `KeyboardEvent` inherits it. -/
def KeyboardEvent.last_timestamp_or_first (e : KeyboardEvent) : Time :=
  e.timestamp

/-- Python's `max(options)` over a nonempty list (every caller below passes a
list of the shape `[a, b, ...]`, so the `[]` case is unreachable). -/
def pyMax : List Time → Time
  | [] => 0
  | x :: xs => xs.foldl max x

/-- `ClickEvent.update_with` (events.py lines 261-278), value-level: the source
mutates `self`; this returns the updated value.
`options_for_last_timestamp` is `[self.timestamp, other.timestamp]` with each
present `last_timestamp` appended, exactly as the source builds it. -/
def ClickEvent.update_with (self other : ClickEvent) : ClickEvent :=
  let new_timestamp := min self.timestamp other.timestamp
  let options_for_last_timestamp :=
    [self.timestamp, other.timestamp] ++ self.last_timestamp.toList ++ other.last_timestamp.toList
  { self with
    n_clicks := self.n_clicks + other.n_clicks
    timestamp := new_timestamp
    last_timestamp := some (pyMax options_for_last_timestamp) }

/-- `ScrollEvent.update_with` (events.py lines 303-320), value-level. -/
def ScrollEvent.update_with (self other : ScrollEvent) : ScrollEvent :=
  let new_timestamp := min self.timestamp other.timestamp
  let options_for_last_timestamp :=
    [self.timestamp, other.timestamp] ++ self.last_timestamp.toList ++ other.last_timestamp.toList
  { self with
    scroll := ⟨self.scroll.dx + other.scroll.dx, self.scroll.dy + other.scroll.dy⟩
    timestamp := new_timestamp
    last_timestamp := some (pyMax options_for_last_timestamp) }

/-- `WriteEvent.update_with` (events.py lines 495-512), value-level:
`self.keys.extend(other_event.keys)` concatenates. -/
def WriteEvent.update_with (self other : WriteEvent) : WriteEvent :=
  let new_timestamp := min self.timestamp other.timestamp
  let options_for_last_timestamp :=
    [self.timestamp, other.timestamp] ++ self.last_timestamp.toList ++ other.last_timestamp.toList
  { self with
    keys := self.keys ++ other.keys
    timestamp := new_timestamp
    last_timestamp := some (pyMax options_for_last_timestamp) }

/-- Python's `isinstance(e, MouseButtonEvent)` holds both for plain
`MouseButtonEvent`s and for the `ClickEvent` subclass; this view packages the
two cases. -/
inductive MouseButtonLike where
  | mb (e : MouseButtonEvent)
  | ck (e : ClickEvent)
deriving DecidableEq, Repr

/-- The `isinstance(e, MouseButtonEvent)` test-and-downcast. -/
def Event.as_mouse_button : Event → Option MouseButtonLike
  | .mouseButton e => some (.mb e)
  | .click e => some (.ck e)
  | _ => none

/-- `timestamp` of a mouse-button-like event. -/
def MouseButtonLike.timestamp : MouseButtonLike → Time
  | .mb e => e.timestamp
  | .ck e => e.timestamp

/-- `screenshot` of a mouse-button-like event. -/
def MouseButtonLike.screenshot : MouseButtonLike → Option Screenshot
  | .mb e => e.screenshot
  | .ck e => e.screenshot

/-- `location` of a mouse-button-like event. -/
def MouseButtonLike.location : MouseButtonLike → Point
  | .mb e => e.location
  | .ck e => e.location

/-- `button` of a mouse-button-like event. -/
def MouseButtonLike.button : MouseButtonLike → MouseButton
  | .mb e => e.button
  | .ck e => e.button

/-- `action` of a mouse-button-like event; a `ClickEvent`'s is the literal
`"click"`. -/
def MouseButtonLike.action : MouseButtonLike → MouseAction
  | .mb e => e.action
  | .ck _ => .click

/-- `last_timestamp_or_first` of a mouse-button-like event: plain
`MouseButtonEvent`s use the `BaseEvent` property (`timestamp`),
`ClickEvent`s their override. -/
def MouseButtonLike.last_timestamp_or_first : MouseButtonLike → Time
  | .mb e => e.timestamp
  | .ck e => e.last_timestamp_or_first

/-- Forget the view. -/
def MouseButtonLike.toEvent : MouseButtonLike → Event
  | .mb e => .mouseButton e
  | .ck e => .click e

/-- `ClickEvent.from_mouse_button_event` (events.py lines 238-248): an existing
`ClickEvent` is returned as a (value-equal) `.copy()`; any other
`MouseButtonEvent` — whatever its `action` — yields a `ClickEvent` with the
same `timestamp`, `screenshot`, `location` and `button` and the defaults
`n_clicks = 1`, `last_timestamp = None`.  The source has no failure path. -/
def ClickEvent.from_mouse_button_event : MouseButtonLike → ClickEvent
  | .ck e => e
  | .mb e => ⟨e.timestamp, e.screenshot, e.location, e.button, 1, none⟩

/-- `WriteEvent.from_keyboard_event` (events.py lines 465-470): same
`timestamp` and `screenshot`, `keys` holding just the event's key. -/
def WriteEvent.from_keyboard_event (e : KeyboardEvent) : WriteEvent :=
  ⟨e.timestamp, e.screenshot, [e.key], none⟩

/-- Per-axis direction compatibility of two scroll deltas: either delta is
zero, or `math.copysign(1, ·)` agrees (for an integer read from a scroll delta,
`copysign(1, d)` is `-1` when `d < 0` and `1` otherwise — the integer `0` has
no negative-zero). -/
def axis_is_compatible (d1 d2 : ℤ) : Prop :=
  d1 = 0 ∨ d2 = 0 ∨ (if d1 < 0 then (-1 : ℤ) else 1) = (if d2 < 0 then (-1 : ℤ) else 1)

instance (d1 d2 : ℤ) : Decidable (axis_is_compatible d1 d2) := by
  unfold axis_is_compatible
  infer_instance

/-- `drop_consecutive_state_snapshots_1` (simplify.py lines 23-27): if both
events are snapshots keep only the second (positionally — there is no
reordering in this merger); otherwise return both, in the given order. -/
def drop_consecutive_state_snapshots_1 (first_event second_event : Event) : List Event :=
  match first_event, second_event with
  | .stateSnapshot _, .stateSnapshot _ => [second_event]
  | _, _ => [first_event, second_event]

/-- `merge_consecutive_mouse_press_then_release_to_click` (simplify.py lines
41-66).  Both events must be `MouseButtonEvent`s (`ClickEvent`s included, per
`isinstance`); the pair is swapped into chronological order; then the press
and release merge into a `ClickEvent` unless any disqualifier holds. -/
def merge_consecutive_mouse_press_then_release_to_click
    (first_event second_event : Event) (max_seconds : ℚ) (max_pixels : ℕ) : List Event :=
  match first_event.as_mouse_button, second_event.as_mouse_button with
  | some a, some b =>
    let f := if a.timestamp > b.timestamp then b else a
    let s := if a.timestamp > b.timestamp then a else b
    if f.button ≠ s.button
        ∨ f.action ≠ .press
        ∨ s.action ≠ .release
        ∨ s.timestamp - f.last_timestamp_or_first > max_seconds
        ∨ distSq f.location s.location > (max_pixels : ℤ) ^ 2
    then [f.toEvent, s.toEvent]
    else [.click (ClickEvent.from_mouse_button_event f)]
  | _, _ => [first_event, second_event]

/-- `merge_consecutive_mouse_clicks_to_multi_click` (simplify.py lines 80-114).
After the chronological swap and the disqualifier check, each event is
converted with `ClickEvent.from_mouse_button_event` when it is not already a
`ClickEvent` (on a `ClickEvent` that conversion is the identity copy, so the
unconditional call below is value-faithful), then
`first_event.copy().update_with(second_event)` produces the merged click. -/
def merge_consecutive_mouse_clicks_to_multi_click
    (first_event second_event : Event) (max_seconds : ℚ) (max_pixels : ℕ) : List Event :=
  match first_event.as_mouse_button, second_event.as_mouse_button with
  | some a, some b =>
    let f := if a.timestamp > b.timestamp then b else a
    let s := if a.timestamp > b.timestamp then a else b
    if f.button ≠ s.button
        ∨ f.action ≠ .click
        ∨ s.action ≠ .click
        ∨ s.timestamp - f.last_timestamp_or_first > max_seconds
        ∨ distSq f.location s.location > (max_pixels : ℤ) ^ 2
    then [f.toEvent, s.toEvent]
    else
      [.click ((ClickEvent.from_mouse_button_event f).update_with
        (ClickEvent.from_mouse_button_event s))]
  | _, _ => [first_event, second_event]

/-- `merge_consecutive_key_press_then_release_to_write` (simplify.py lines
123-145). -/
def merge_consecutive_key_press_then_release_to_write
    (first_event second_event : Event) (max_seconds : ℚ) : List Event :=
  match first_event, second_event with
  | .keyboard a, .keyboard b =>
    let f := if a.timestamp > b.timestamp then b else a
    let s := if a.timestamp > b.timestamp then a else b
    if s.timestamp - f.last_timestamp_or_first > max_seconds
        ∨ f.key ≠ s.key
        ∨ f.action ≠ .press
        ∨ s.action ≠ .release
    then [.keyboard f, .keyboard s]
    else [.write (WriteEvent.from_keyboard_event f)]
  | _, _ => [first_event, second_event]

/-- `merge_consecutive_write_events_1` (simplify.py lines 154-172):
`first_event.copy(deep=True)` then `update_with(second_event)`. -/
def merge_consecutive_write_events_1
    (first_event second_event : Event) (max_seconds : ℚ) : List Event :=
  match first_event, second_event with
  | .write a, .write b =>
    let f := if a.timestamp > b.timestamp then b else a
    let s := if a.timestamp > b.timestamp then a else b
    if s.timestamp - f.last_timestamp_or_first > max_seconds
    then [.write f, .write s]
    else [.write (f.update_with s)]
  | _, _ => [first_event, second_event]

/-- `merge_consecutive_scroll_events` (simplify.py lines 175-224): the pairwise
scroll merger, with the per-axis direction-compatibility check and the
`merge_opposite_directions` override. -/
def merge_consecutive_scroll_events
    (first_event second_event : Event) (max_seconds : ℚ) (max_pixels : ℕ)
    (merge_opposite_directions : Bool) : List Event :=
  match first_event, second_event with
  | .scroll a, .scroll b =>
    let f := if a.timestamp > b.timestamp then b else a
    let s := if a.timestamp > b.timestamp then a else b
    if s.timestamp - f.last_timestamp_or_first > max_seconds
        ∨ distSq f.location s.location > (max_pixels : ℤ) ^ 2
    then [.scroll f, .scroll s]
    else
      if merge_opposite_directions
          ∨ (axis_is_compatible f.scroll.dx s.scroll.dx
            ∧ axis_is_compatible f.scroll.dy s.scroll.dy)
      then [.scroll (f.update_with s)]
      else [.scroll f, .scroll s]
  | _, _ => [first_event, second_event]

/-- The inner `for merger in event_mergers` loop of `merge_consecutive_events`
(simplify.py lines 247-253): the first merger whose result has length 1 wins
and the loop breaks; later mergers are not consulted. -/
def first_merging
    (event_mergers : List (Event → Event → List Event)) (last e : Event) : Option Event :=
  match event_mergers with
  | [] => none
  | merger :: rest =>
    match merger last e with
    | [merged] => some merged
    | _ => first_merging rest last e

/-- The outer loop of `merge_consecutive_events` (simplify.py lines 245-257):
`last` is `final_events[-1]`; a merge replaces it in place, otherwise it is
final and the next input event becomes the new last accumulated event. -/
def merge_loop
    (event_mergers : List (Event → Event → List Event)) (last : Event) :
    List Event → List Event
  | [] => [last]
  | e :: rest =>
    match first_merging event_mergers last e with
    | some merged => merge_loop event_mergers merged rest
    | none => last :: merge_loop event_mergers e rest

/-- `merge_consecutive_events` (simplify.py lines 227-257): fewer than two
events are returned unchanged; otherwise a single left-to-right fold starting
from the first event. -/
def merge_consecutive_events
    (events : List Event) (event_mergers : List (Event → Event → List Event)) : List Event :=
  match events with
  | [] => events
  | [_] => events
  | e :: rest => merge_loop event_mergers e rest

/-- `drop_consecutive_state_snapshots` (simplify.py lines 16-20). -/
def drop_consecutive_state_snapshots (events : List Event) : List Event :=
  merge_consecutive_events events [drop_consecutive_state_snapshots_1]

/-- `convert_mouse_press_then_release_to_click` (simplify.py lines 30-38);
Python defaults `max_seconds=0.2`, `max_pixels=5`. -/
def convert_mouse_press_then_release_to_click
    (events : List Event) (max_seconds : ℚ) (max_pixels : ℕ) : List Event :=
  merge_consecutive_events events
    [fun e1 e2 => merge_consecutive_mouse_press_then_release_to_click e1 e2 max_seconds max_pixels]

/-- `convert_mouse_clicks_to_multi_click` (simplify.py lines 69-77);
Python defaults `max_seconds=0.4`, `max_pixels=5`. -/
def convert_mouse_clicks_to_multi_click
    (events : List Event) (max_seconds : ℚ) (max_pixels : ℕ) : List Event :=
  merge_consecutive_events events
    [fun e1 e2 => merge_consecutive_mouse_clicks_to_multi_click e1 e2 max_seconds max_pixels]

/-- `convert_key_press_then_release_to_write` (simplify.py lines 117-120);
Python default `max_seconds=0.15`. -/
def convert_key_press_then_release_to_write
    (events : List Event) (max_seconds : ℚ) : List Event :=
  merge_consecutive_events events
    [fun e1 e2 => merge_consecutive_key_press_then_release_to_write e1 e2 max_seconds]

/-- `merge_consecutive_write_events` (simplify.py lines 148-151);
Python default `max_seconds=1`. -/
def merge_consecutive_write_events (events : List Event) (max_seconds : ℚ) : List Event :=
  merge_consecutive_events events
    [fun e1 e2 => merge_consecutive_write_events_1 e1 e2 max_seconds]

/-- The result of calling one simplifier entry from Python: a value, or an
uncaught `TypeError` (raised when a callable is applied to the wrong number of
arguments). -/
inductive PyResult (α : Type) where
  | ok (a : α)
  | typeError
deriving DecidableEq, Repr

/-- `ALL_SIMPLIFIERS` (simplify.py lines 260-267).  The first five entries are
the whole-sequence passes above, applied at their Python default thresholds
(`0.2`, `5`), (`0.4`, `5`), (`0.15`), (`1`).  The sixth entry is the *pairwise*
merger `merge_consecutive_scroll_events` itself — the source has no
whole-sequence scroll pass — whose signature requires two positional event
arguments, so `run_simplifiers`'s single-argument call `simplifier(events)`
raises `TypeError: merge_consecutive_scroll_events() missing 1 required
positional argument: 'second_event'` before any of its body runs. -/
def ALL_SIMPLIFIERS : List (List Event → PyResult (List Event)) :=
  [fun events => .ok (drop_consecutive_state_snapshots events),
   fun events => .ok (convert_mouse_press_then_release_to_click events (1/5) 5),
   fun events => .ok (convert_mouse_clicks_to_multi_click events (2/5) 5),
   fun events => .ok (convert_key_press_then_release_to_write events (3/20)),
   fun events => .ok (merge_consecutive_write_events events 1),
   fun _ => .typeError]

/-- `run_simplifiers` (simplify.py lines 270-273): fold the simplifier list
over the event sequence; an uncaught `TypeError` from any entry propagates. -/
def run_simplifiers
    (events : List Event) (simplifiers : List (List Event → PyResult (List Event))) :
    PyResult (List Event) :=
  match simplifiers with
  | [] => .ok events
  | simplifier :: rest =>
    match simplifier events with
    | .ok es => run_simplifiers es rest
    | .typeError => .typeError

/-!
Store-passing rendering of the mergers.  Python objects have identity: pydantic
`.copy()` / `.copy(deep=True)` and the constructors allocate new objects, and
`update_with` writes its receiver in place.  To state the non-mutation
contract ("the original events are unmodified") the mergers are re-rendered
over an explicit object store; ids are allocation indices.  The `copy(deep=True)`
taken by the write merger makes the copy's `keys` list independent of the
original's, so every copy is modelled as a fresh, independent store entry.
-/

/-- A Python object store: events addressed by object id (allocation index). -/
structure Store where
  objs : List Event
deriving DecidableEq, Repr

/-- Dereference an object id. -/
def Store.get (st : Store) (i : ℕ) : Option Event :=
  st.objs[i]?

/-- Allocate a new object, returning its id (the previous store size). -/
def Store.alloc (st : Store) (e : Event) : Store × ℕ :=
  (⟨st.objs ++ [e]⟩, st.objs.length)

/-- Overwrite the object at id `i` in place. -/
def Store.write_at (st : Store) (i : ℕ) (e : Event) : Store :=
  ⟨st.objs.set i e⟩

/-- `drop_consecutive_state_snapshots_1`, store-level: no allocation, no write;
it only chooses which argument ids to return. -/
def drop_consecutive_state_snapshots_1_store (st : Store) (i j : ℕ) : Store × List ℕ :=
  match st.get i, st.get j with
  | some (.stateSnapshot _), some (.stateSnapshot _) => (st, [j])
  | _, _ => (st, [i, j])

/-- `merge_consecutive_mouse_press_then_release_to_click`, store-level: the
only allocation is the `ClickEvent` constructed by `from_mouse_button_event`
on the merge path; neither argument object is written. -/
def merge_press_then_release_store
    (st : Store) (i j : ℕ) (max_seconds : ℚ) (max_pixels : ℕ) : Store × List ℕ :=
  match st.get i, st.get j with
  | some ea, some eb =>
    match ea.as_mouse_button, eb.as_mouse_button with
    | some a, some b =>
      let f := if a.timestamp > b.timestamp then b else a
      let s := if a.timestamp > b.timestamp then a else b
      let fi := if a.timestamp > b.timestamp then j else i
      let si := if a.timestamp > b.timestamp then i else j
      if f.button ≠ s.button
          ∨ f.action ≠ .press
          ∨ s.action ≠ .release
          ∨ s.timestamp - f.last_timestamp_or_first > max_seconds
          ∨ distSq f.location s.location > (max_pixels : ℤ) ^ 2
      then (st, [fi, si])
      else
        let r := st.alloc (.click (ClickEvent.from_mouse_button_event f))
        (r.1, [r.2])
    | _, _ => (st, [i, j])
  | _, _ => (st, [i, j])

/-- `merge_consecutive_mouse_clicks_to_multi_click`, store-level:
`if not isinstance(..., ClickEvent)` allocates a converted `ClickEvent` for a
plain `MouseButtonEvent` (an existing `ClickEvent` keeps its identity); then
`first_event.copy()` allocates a fresh copy, and `update_with` writes that
fresh copy — never an argument object — in place. -/
def merge_clicks_to_multi_click_store
    (st : Store) (i j : ℕ) (max_seconds : ℚ) (max_pixels : ℕ) : Store × List ℕ :=
  match st.get i, st.get j with
  | some ea, some eb =>
    match ea.as_mouse_button, eb.as_mouse_button with
    | some a, some b =>
      let f := if a.timestamp > b.timestamp then b else a
      let s := if a.timestamp > b.timestamp then a else b
      let fi := if a.timestamp > b.timestamp then j else i
      let si := if a.timestamp > b.timestamp then i else j
      if f.button ≠ s.button
          ∨ f.action ≠ .click
          ∨ s.action ≠ .click
          ∨ s.timestamp - f.last_timestamp_or_first > max_seconds
          ∨ distSq f.location s.location > (max_pixels : ℤ) ^ 2
      then (st, [fi, si])
      else
        let fc := ClickEvent.from_mouse_button_event f
        let sc := ClickEvent.from_mouse_button_event s
        let st1 := match f with
          | .mb _ => (st.alloc (.click fc)).1
          | .ck _ => st
        let st2 := match s with
          | .mb _ => (st1.alloc (.click sc)).1
          | .ck _ => st1
        let r := st2.alloc (.click fc)
        let st3 := r.1.write_at r.2 (.click (fc.update_with sc))
        (st3, [r.2])
    | _, _ => (st, [i, j])
  | _, _ => (st, [i, j])

/-- `merge_consecutive_key_press_then_release_to_write`, store-level:
`WriteEvent.from_keyboard_event` allocates the bare `WriteEvent` and then
appends the key to the fresh object's `keys` (a write to the fresh id). -/
def merge_key_press_then_release_store
    (st : Store) (i j : ℕ) (max_seconds : ℚ) : Store × List ℕ :=
  match st.get i, st.get j with
  | some (.keyboard a), some (.keyboard b) =>
    let f := if a.timestamp > b.timestamp then b else a
    let s := if a.timestamp > b.timestamp then a else b
    let fi := if a.timestamp > b.timestamp then j else i
    let si := if a.timestamp > b.timestamp then i else j
    if s.timestamp - f.last_timestamp_or_first > max_seconds
        ∨ f.key ≠ s.key
        ∨ f.action ≠ .press
        ∨ s.action ≠ .release
    then (st, [fi, si])
    else
      let r := st.alloc (.write ⟨f.timestamp, f.screenshot, [], none⟩)
      let st2 := r.1.write_at r.2 (.write (WriteEvent.from_keyboard_event f))
      (st2, [r.2])
  | _, _ => (st, [i, j])

/-- `merge_consecutive_write_events_1`, store-level: `copy(deep=True)`
allocates a fully independent copy and `update_with` writes only that copy. -/
def merge_write_events_store
    (st : Store) (i j : ℕ) (max_seconds : ℚ) : Store × List ℕ :=
  match st.get i, st.get j with
  | some (.write a), some (.write b) =>
    let f := if a.timestamp > b.timestamp then b else a
    let s := if a.timestamp > b.timestamp then a else b
    let fi := if a.timestamp > b.timestamp then j else i
    let si := if a.timestamp > b.timestamp then i else j
    if s.timestamp - f.last_timestamp_or_first > max_seconds
    then (st, [fi, si])
    else
      let r := st.alloc (.write f)
      let st2 := r.1.write_at r.2 (.write (f.update_with s))
      (st2, [r.2])
  | _, _ => (st, [i, j])

/-- `merge_consecutive_scroll_events`, store-level: `first_event.copy()`
allocates, `update_with` writes only the copy. -/
def merge_scroll_events_store
    (st : Store) (i j : ℕ) (max_seconds : ℚ) (max_pixels : ℕ)
    (merge_opposite_directions : Bool) : Store × List ℕ :=
  match st.get i, st.get j with
  | some (.scroll a), some (.scroll b) =>
    let f := if a.timestamp > b.timestamp then b else a
    let s := if a.timestamp > b.timestamp then a else b
    let fi := if a.timestamp > b.timestamp then j else i
    let si := if a.timestamp > b.timestamp then i else j
    if s.timestamp - f.last_timestamp_or_first > max_seconds
        ∨ distSq f.location s.location > (max_pixels : ℤ) ^ 2
    then (st, [fi, si])
    else
      if merge_opposite_directions
          ∨ (axis_is_compatible f.scroll.dx s.scroll.dx
            ∧ axis_is_compatible f.scroll.dy s.scroll.dy)
      then
        let r := st.alloc (.scroll f)
        let st2 := r.1.write_at r.2 (.scroll (f.update_with s))
        (st2, [r.2])
      else (st, [fi, si])
  | _, _ => (st, [i, j])

/-- `st'` extends `st`: it is at least as large and agrees with `st` on every
id `st` already holds.  The store-level mergers only grow the store, which is
exactly the non-mutation contract: pre-existing objects, the two argument
events among them, are untouched. -/
def Store.grows (st' st : Store) : Prop :=
  st.objs.length ≤ st'.objs.length ∧ ∀ k, k < st.objs.length → st'.get k = st.get k

/-- Modelled from the claim's wording of the merge-engine algorithm, for
comparison with the source-derived `merge_consecutive_events`: the first
merger in the supplied list that returns a single event wins. -/
def first_merging_spec
    (event_mergers : List (Event → Event → List Event)) (last e : Event) : Option Event :=
  event_mergers.findSome? fun merger =>
    match merger last e with
    | [merged] => some merged
    | _ => none

/-- Modelled from the claim's wording, for comparison with the source-derived
`merge_consecutive_events`: a single left-to-right fold whose state is the
finished output prefix together with the most recently accumulated event; only
that event is ever compared against the next input event, a successful merge
replaces it (leaving the finished prefix untouched — never undone), and the
merged event stays in the comparison slot for the next input event. -/
def merge_consecutive_events_spec
    (events : List Event) (event_mergers : List (Event → Event → List Event)) : List Event :=
  match events with
  | [] => []
  | e :: rest =>
    let result := rest.foldl
      (fun st e =>
        match first_merging_spec event_mergers st.2 e with
        | some merged => (st.1, merged)
        | none => (st.1 ++ [st.2], e))
      (([] : List Event), e)
    result.1 ++ [result.2]

/-- `True` exactly on `StateSnapshotEvent`s. -/
def Event.is_state_snapshot : Event → Bool
  | .stateSnapshot _ => true
  | _ => false

/-- `isinstance(e, KeyboardEvent)` as a test. -/
def Event.is_keyboard : Event → Bool
  | .keyboard _ => true
  | _ => false

/-- `isinstance(e, WriteEvent)` as a test. -/
def Event.is_write : Event → Bool
  | .write _ => true
  | _ => false

/-- `isinstance(e, ScrollEvent)` as a test. -/
def Event.is_scroll : Event → Bool
  | .scroll _ => true
  | _ => false

/-! Helper lemmas (shared; not tied to any one claim). -/

lemma as_mouse_button_toEvent (v : MouseButtonLike) :
    v.toEvent.as_mouse_button = some v := by
  cases v <;> rfl

lemma pyMax_options (t1 t2 : Time) (o1 o2 : Option Time) :
    pyMax ([t1, t2] ++ o1.toList ++ o2.toList)
      = max (max t1 t2) (max (o1.getD t1) (o2.getD t2)) := by
  cases o1 <;> cases o2 <;>
    simp [pyMax, max_assoc, max_comm, max_left_comm, max_self]

lemma Store.grows_refl (st : Store) : st.grows st :=
  ⟨le_refl _, fun _ _ => rfl⟩

lemma Store.grows_trans {a b c : Store} (hab : a.grows b) (hbc : b.grows c) :
    a.grows c :=
  ⟨le_trans hbc.1 hab.1,
   fun k hk => (hab.2 k (lt_of_lt_of_le hk hbc.1)).trans (hbc.2 k hk)⟩

lemma Store.grows_alloc (st : Store) (e : Event) : (st.alloc e).1.grows st := by
  refine ⟨?_, fun k hk => ?_⟩
  · simp [Store.alloc]
  · simp only [Store.alloc, Store.get]
    exact List.getElem?_append_left hk

lemma Store.grows_write_at {st' st : Store} (h : st'.grows st) {m : ℕ}
    (hm : st.objs.length ≤ m) (e : Event) : (st'.write_at m e).grows st := by
  refine ⟨by simpa [Store.write_at] using h.1, fun k hk => ?_⟩
  have hne : m ≠ k := by omega
  simp only [Store.write_at, Store.get]
  rw [List.getElem?_set_ne hne]
  exact h.2 k hk

lemma first_merging_eq_spec (event_mergers : List (Event → Event → List Event))
    (last e : Event) :
    first_merging event_mergers last e = first_merging_spec event_mergers last e := by
  induction event_mergers with
  | nil => rfl
  | cons merger rest ih =>
    simp only [first_merging, first_merging_spec, List.findSome?_cons]
    cases merger last e with
    | nil => simpa [first_merging_spec] using ih
    | cons x xs =>
      cases xs with
      | nil => rfl
      | cons y ys => simpa [first_merging_spec] using ih

/-- The outer loop of the source engine agrees with the spec-worded fold, for
any accumulated prefix. -/
lemma merge_loop_eq_foldl (event_mergers : List (Event → Event → List Event)) :
    ∀ (rest : List Event) (out : List Event) (last : Event),
      (rest.foldl
        (fun st e =>
          match first_merging_spec event_mergers st.2 e with
          | some merged => (st.1, merged)
          | none => (st.1 ++ [st.2], e))
        (out, last)).1
      ++ [(rest.foldl
        (fun st e =>
          match first_merging_spec event_mergers st.2 e with
          | some merged => (st.1, merged)
          | none => (st.1 ++ [st.2], e))
        (out, last)).2]
      = out ++ merge_loop event_mergers last rest := by
  intro rest
  induction rest with
  | nil => intro out last; simp [merge_loop]
  | cons e rest ih =>
    intro out last
    have hfm := first_merging_eq_spec event_mergers last e
    simp only [List.foldl_cons, merge_loop, hfm]
    cases h : first_merging_spec event_mergers last e with
    | some merged => simpa [h] using ih out merged
    | none => simpa [h] using ih (out ++ [last]) e

/-! Theorems settling the claims. -/

/-- C1: the claim reads `run_simplifiers` with its default simplifier list as
applying the six canonical passes and returning without error.  The code
cannot: the sixth entry of `ALL_SIMPLIFIERS` is the two-argument pairwise
merger `merge_consecutive_scroll_events` itself (there is no whole-sequence
scroll pass in simplify.py), so the single-argument call `simplifier(events)`
raises `TypeError` on every input — the first five passes run, the sixth
always fails.  This theorem evaluates the embedded code: for every input
sequence the default pipeline ends in the `TypeError`, never in a result. -/
theorem run_simplifiers_default_raises_type_error (events : List Event) :
    run_simplifiers events ALL_SIMPLIFIERS = PyResult.typeError :=
  rfl

/-- C6 counterexample: the claim says `Click.from_mouse_button_event` fails
with a validation error on any mouse-button event whose action is not
`"click"` and never produces a Click.  The source (events.py lines 238-248)
has no such check: given a *press* event it silently constructs and returns a
`ClickEvent` (here evaluated at a concrete press). -/
theorem from_mouse_button_event_accepts_press :
    ClickEvent.from_mouse_button_event
        (.mb ⟨0, none, ⟨1, 1⟩, MouseAction.press, MouseButton.left⟩)
      = ⟨0, none, ⟨1, 1⟩, MouseButton.left, 1, none⟩ :=
  rfl

/-- C6 amended: `Click.from_mouse_button_event` never fails.  An existing
`ClickEvent` is returned as a value-equal copy; any other mouse-button event —
whatever its action (press, release or click) — yields the `ClickEvent` with
the same timestamp, screenshot, location and button, action forced to
`"click"`, `n_clicks = 1` and `last_timestamp = None`. -/
theorem from_mouse_button_event_total :
    (∀ e : MouseButtonEvent,
      ClickEvent.from_mouse_button_event (.mb e)
        = ⟨e.timestamp, e.screenshot, e.location, e.button, 1, none⟩)
    ∧ ∀ c : ClickEvent, ClickEvent.from_mouse_button_event (.ck c) = c :=
  ⟨fun _ => rfl, fun _ => rfl⟩

/-- C7 counterexample: the claim says the drop-consecutive-snapshot merger
keeps exactly the chronologically later snapshot (by timestamp).  The source
(simplify.py lines 23-27) keeps the positionally second one without looking at
timestamps: fed a pair in reverse chronological order (first at t=5, second at
t=3) it keeps the t=3 snapshot, the chronologically *earlier* one, dropping
the later one. -/
theorem drop_snapshots_keeps_earlier_on_reversed_pair :
    drop_consecutive_state_snapshots_1
        (.stateSnapshot ⟨5, .image 0, ⟨1, 1⟩⟩)
        (.stateSnapshot ⟨3, .image 1, ⟨1, 2⟩⟩)
      = [.stateSnapshot ⟨3, .image 1, ⟨1, 2⟩⟩]
    ∧ (3 : Time) < 5 :=
  ⟨rfl, by norm_num⟩

/-- C7 amended: for every pair of snapshots the merger keeps exactly the
positionally second one (which is the chronologically later one whenever the
pair arrives in chronological order), and a sequence of three consecutive
snapshots collapses, through the whole-sequence pass, to the single last
snapshot. -/
theorem drop_snapshots_keeps_second (s1 s2 s3 : StateSnapshotEvent) :
    drop_consecutive_state_snapshots_1 (.stateSnapshot s1) (.stateSnapshot s2)
      = [.stateSnapshot s2]
    ∧ drop_consecutive_state_snapshots
        [.stateSnapshot s1, .stateSnapshot s2, .stateSnapshot s3]
      = [.stateSnapshot s3] :=
  ⟨rfl, rfl⟩

/-- C4: for each of the three `update_with` operations (Click, Scroll, Write),
the merged event's `timestamp` is the minimum of the two original timestamps
and its `last_timestamp` is the maximum over both original timestamps and both
original `last_timestamp_or_first` values. -/
theorem update_with_timestamps (c1 c2 : ClickEvent) (s1 s2 : ScrollEvent)
    (w1 w2 : WriteEvent) :
    ((c1.update_with c2).timestamp = min c1.timestamp c2.timestamp
      ∧ (c1.update_with c2).last_timestamp
          = some (max (max c1.timestamp c2.timestamp)
              (max c1.last_timestamp_or_first c2.last_timestamp_or_first)))
    ∧ ((s1.update_with s2).timestamp = min s1.timestamp s2.timestamp
      ∧ (s1.update_with s2).last_timestamp
          = some (max (max s1.timestamp s2.timestamp)
              (max s1.last_timestamp_or_first s2.last_timestamp_or_first)))
    ∧ ((w1.update_with w2).timestamp = min w1.timestamp w2.timestamp
      ∧ (w1.update_with w2).last_timestamp
          = some (max (max w1.timestamp w2.timestamp)
              (max w1.last_timestamp_or_first w2.last_timestamp_or_first))) := by
  refine ⟨⟨rfl, ?_⟩, ⟨rfl, ?_⟩, ⟨rfl, ?_⟩⟩
  · simpa [ClickEvent.update_with, ClickEvent.last_timestamp_or_first] using
      pyMax_options c1.timestamp c2.timestamp c1.last_timestamp c2.last_timestamp
  · simpa [ScrollEvent.update_with, ScrollEvent.last_timestamp_or_first] using
      pyMax_options s1.timestamp s2.timestamp s1.last_timestamp s2.last_timestamp
  · simpa [WriteEvent.update_with, WriteEvent.last_timestamp_or_first] using
      pyMax_options w1.timestamp w2.timestamp w1.last_timestamp w2.last_timestamp

/-- C3: for two mouse-button events (the view covers plain `MouseButtonEvent`s
and `ClickEvent`s alike), with `(f, s)` the pair in the chronological order
the merger itself establishes (swapping exactly when the first argument's
timestamp is strictly later), the press-then-release merger produces a single
`ClickEvent` — carrying `f`'s location, timestamp and screenshot, `n_clicks =
1` and no `last_timestamp` — if and only if the buttons agree, `f` is a press,
`s` is a release, the gap from `f`'s end (`last_timestamp_or_first`) to `s`'s
start is at most `max_seconds` (boundary admissible), and the squared
distance between the locations is at most `max_pixels ^ 2` (equivalently,
Euclidean distance at most `max_pixels`, boundary admissible). -/
theorem press_then_release_merges_iff
    (a b : MouseButtonLike) (max_seconds : ℚ) (max_pixels : ℕ)
    (f s : MouseButtonLike)
    (hf : f = if a.timestamp > b.timestamp then b else a)
    (hs : s = if a.timestamp > b.timestamp then a else b) :
    merge_consecutive_mouse_press_then_release_to_click a.toEvent b.toEvent
        max_seconds max_pixels
      = [.click ⟨f.timestamp, f.screenshot, f.location, f.button, 1, none⟩]
    ↔ (f.button = s.button ∧ f.action = .press ∧ s.action = .release
        ∧ s.timestamp - f.last_timestamp_or_first ≤ max_seconds
        ∧ distSq f.location s.location ≤ (max_pixels : ℤ) ^ 2) := by
  simp only [merge_consecutive_mouse_press_then_release_to_click,
    as_mouse_button_toEvent, ← hf, ← hs]
  by_cases hD : f.button ≠ s.button ∨ f.action ≠ .press ∨ s.action ≠ .release
      ∨ s.timestamp - f.last_timestamp_or_first > max_seconds
      ∨ distSq f.location s.location > (max_pixels : ℤ) ^ 2
  · rw [if_pos hD]
    apply iff_of_false
    · cases f <;> cases s <;> simp [MouseButtonLike.toEvent]
    · rintro ⟨h1, h2, h3, h4, h5⟩
      rcases hD with h | h | h | h | h
      exacts [h h1, h h2, h h3, absurd h4 (not_le.mpr h), absurd h5 (not_le.mpr h)]
  · rw [if_neg hD]
    push_neg at hD
    obtain ⟨h1, h2, h3, h4, h5⟩ := hD
    apply iff_of_true
    · cases f with
      | mb e => rfl
      | ck c => simp [MouseButtonLike.action] at h2
    · exact ⟨h1, h2, h3, h4, h5⟩

/-- C3 witness: a left press at (1,1), t=0, followed by a left release at
(1,1), t=0.1, with the default thresholds (0.2 s, 5 px), merges into the
single instantaneous click at (1,1), t=0. -/
theorem press_then_release_merges_iff_witness :
    merge_consecutive_mouse_press_then_release_to_click
        (Event.mouseButton ⟨0, none, ⟨1, 1⟩, .press, .left⟩)
        (Event.mouseButton ⟨1/10, none, ⟨1, 1⟩, .release, .left⟩)
        (1/5) 5
      = [.click ⟨0, none, ⟨1, 1⟩, .left, 1, none⟩] :=
  (press_then_release_merges_iff
      (.mb ⟨0, none, ⟨1, 1⟩, .press, .left⟩)
      (.mb ⟨1/10, none, ⟨1, 1⟩, .release, .left⟩)
      (1/5) 5
      (.mb ⟨0, none, ⟨1, 1⟩, .press, .left⟩)
      (.mb ⟨1/10, none, ⟨1, 1⟩, .release, .left⟩)
      (by norm_num [MouseButtonLike.timestamp])
      (by norm_num [MouseButtonLike.timestamp])).mpr
    (by refine ⟨rfl, rfl, rfl, by norm_num [MouseButtonLike.timestamp,
      MouseButtonLike.last_timestamp_or_first], by
        norm_num [MouseButtonLike.location, distSq]⟩)

/-- C10: whenever the press-then-release merger produces a single click, that
click has `last_timestamp = None` and carries the timestamp of `f`, the
chronologically first event (the press); the release's timestamp appears
nowhere in the result, so the click's duration
(`last_timestamp_or_first - timestamp`) is 0 regardless of the press-release
gap. -/
theorem press_release_click_discards_release_timestamp
    (a b : MouseButtonLike) (max_seconds : ℚ) (max_pixels : ℕ) (c : ClickEvent)
    (f s : MouseButtonLike)
    (hf : f = if a.timestamp > b.timestamp then b else a)
    (hs : s = if a.timestamp > b.timestamp then a else b)
    (h : merge_consecutive_mouse_press_then_release_to_click a.toEvent b.toEvent
        max_seconds max_pixels = [.click c]) :
    c.last_timestamp = none ∧ c.n_clicks = 1 ∧ f.action = .press
      ∧ c.timestamp = f.timestamp
      ∧ c.last_timestamp_or_first - c.timestamp = 0 := by
  simp only [merge_consecutive_mouse_press_then_release_to_click,
    as_mouse_button_toEvent, ← hf, ← hs] at h
  by_cases hD : f.button ≠ s.button ∨ f.action ≠ .press ∨ s.action ≠ .release
      ∨ s.timestamp - f.last_timestamp_or_first > max_seconds
      ∨ distSq f.location s.location > (max_pixels : ℤ) ^ 2
  · rw [if_pos hD] at h
    simp at h
  · rw [if_neg hD] at h
    push_neg at hD
    obtain ⟨h1, h2, h3, h4, h5⟩ := hD
    simp only [List.cons.injEq, and_true, Event.click.injEq] at h
    cases f with
    | ck cc => simp [MouseButtonLike.action] at h2
    | mb e =>
      subst h
      exact ⟨rfl, rfl, h2, rfl, by
        simp [ClickEvent.last_timestamp_or_first, ClickEvent.from_mouse_button_event]⟩

/-- C10 witness: a left press at t=0 and a left release at t=1 (gap 1 ≤
max_seconds=2) merge into a click whose `last_timestamp` is `none` and whose
timestamp is the press's 0. -/
theorem press_release_click_discards_release_timestamp_witness :
    (⟨0, none, ⟨1, 1⟩, MouseButton.left, 1, none⟩ : ClickEvent).last_timestamp = none
    ∧ (⟨0, none, ⟨1, 1⟩, MouseButton.left, 1, none⟩ : ClickEvent).timestamp
        = (MouseButtonLike.mb ⟨0, none, ⟨1, 1⟩, .press, .left⟩).timestamp :=
  have h := press_release_click_discards_release_timestamp
    (.mb ⟨0, none, ⟨1, 1⟩, .press, .left⟩)
    (.mb ⟨1, none, ⟨1, 1⟩, .release, .left⟩)
    2 5
    ⟨0, none, ⟨1, 1⟩, MouseButton.left, 1, none⟩
    (.mb ⟨0, none, ⟨1, 1⟩, .press, .left⟩)
    (.mb ⟨1, none, ⟨1, 1⟩, .release, .left⟩)
    (by norm_num [MouseButtonLike.timestamp])
    (by norm_num [MouseButtonLike.timestamp])
    (by norm_num [merge_consecutive_mouse_press_then_release_to_click,
      Event.as_mouse_button, MouseButtonLike.timestamp,
      MouseButtonLike.last_timestamp_or_first, MouseButtonLike.location,
      MouseButtonLike.button, MouseButtonLike.action, distSq,
      MouseButtonLike.toEvent, ClickEvent.from_mouse_button_event])
  ⟨h.1, h.2.2.2.1⟩

/-- C5: for two scroll events whose ordered pair `(f, s)` (the merger's own
chronological swap) lies within the time and distance gates, with
`merge_opposite_directions=False` the merger produces the single combined
scroll exactly when each axis is direction-compatible (a delta is zero or the
signs agree); with `merge_opposite_directions=True` it always produces it;
and the combined scroll's delta is the componentwise sum of the two. -/
theorem scroll_merge_direction_rules
    (a b : ScrollEvent) (max_seconds : ℚ) (max_pixels : ℕ) (f s : ScrollEvent)
    (hf : f = if a.timestamp > b.timestamp then b else a)
    (hs : s = if a.timestamp > b.timestamp then a else b)
    (htime : s.timestamp - f.last_timestamp_or_first ≤ max_seconds)
    (hdist : distSq f.location s.location ≤ (max_pixels : ℤ) ^ 2) :
    (merge_consecutive_scroll_events (.scroll a) (.scroll b) max_seconds max_pixels false
        = [.scroll (f.update_with s)]
      ↔ (axis_is_compatible f.scroll.dx s.scroll.dx
          ∧ axis_is_compatible f.scroll.dy s.scroll.dy))
    ∧ merge_consecutive_scroll_events (.scroll a) (.scroll b) max_seconds max_pixels true
        = [.scroll (f.update_with s)]
    ∧ (f.update_with s).scroll
        = ⟨f.scroll.dx + s.scroll.dx, f.scroll.dy + s.scroll.dy⟩ := by
  have hgate : ¬(s.timestamp - f.last_timestamp_or_first > max_seconds
      ∨ distSq f.location s.location > (max_pixels : ℤ) ^ 2) := by
    push_neg
    exact ⟨htime, hdist⟩
  refine ⟨?_, ?_, rfl⟩
  · simp only [merge_consecutive_scroll_events, ← hf, ← hs]
    rw [if_neg hgate]
    by_cases hc : axis_is_compatible f.scroll.dx s.scroll.dx
        ∧ axis_is_compatible f.scroll.dy s.scroll.dy
    · rw [if_pos (Or.inr hc)]
      exact iff_of_true rfl hc
    · rw [if_neg (by simpa using hc)]
      exact iff_of_false (by simp) hc
  · simp only [merge_consecutive_scroll_events, ← hf, ← hs]
    rw [if_neg hgate, if_pos (Or.inl trivial)]

/-- C5 witness (the spec's own scenario): `Scroll((1,1), (-1,-1))` at t=0 and
`Scroll((1,1), (1,1))` at t=1 are within the default gates (3 s, 5 px); with
`merge_opposite_directions=True` they merge into the summed scroll `(0,0)`. -/
theorem scroll_merge_direction_rules_witness :
    merge_consecutive_scroll_events
        (.scroll ⟨0, none, ⟨1, 1⟩, ⟨-1, -1⟩, none⟩)
        (.scroll ⟨1, none, ⟨1, 1⟩, ⟨1, 1⟩, none⟩)
        3 5 true
      = [.scroll (ScrollEvent.update_with
          ⟨0, none, ⟨1, 1⟩, ⟨-1, -1⟩, none⟩ ⟨1, none, ⟨1, 1⟩, ⟨1, 1⟩, none⟩)] :=
  (scroll_merge_direction_rules
      ⟨0, none, ⟨1, 1⟩, ⟨-1, -1⟩, none⟩ ⟨1, none, ⟨1, 1⟩, ⟨1, 1⟩, none⟩
      3 5
      ⟨0, none, ⟨1, 1⟩, ⟨-1, -1⟩, none⟩ ⟨1, none, ⟨1, 1⟩, ⟨1, 1⟩, none⟩
      (by norm_num) (by norm_num)
      (by norm_num [ScrollEvent.last_timestamp_or_first])
      (by norm_num [distSq])).2.1

/-- C2: the merge engine equals, extensionally, the fold the claim describes —
a single left-to-right pass whose state is the finished output prefix plus the
most recently accumulated event; only that event is compared with the next
input event, via the first merger in the supplied list that returns a single
event (later mergers unconsulted, the finished prefix never revisited), and a
freshly merged event stays in the comparison slot for the next input event —
and it is the identity on inputs of fewer than two events, whatever the merger
list. -/
theorem merge_consecutive_events_is_last_only_fold :
    ∀ (events : List Event) (event_mergers : List (Event → Event → List Event)),
      merge_consecutive_events events event_mergers
          = merge_consecutive_events_spec events event_mergers
      ∧ (events.length < 2 → merge_consecutive_events events event_mergers = events) := by
  intro events event_mergers
  refine ⟨?_, ?_⟩
  · cases events with
    | nil => rfl
    | cons e rest =>
      cases rest with
      | nil => rfl
      | cons f rest2 =>
        have h := merge_loop_eq_foldl event_mergers (f :: rest2) [] e
        simp only [List.nil_append] at h
        simpa [merge_consecutive_events, merge_consecutive_events_spec] using h.symm
  · intro hlen
    cases events with
    | nil => rfl
    | cons e rest =>
      cases rest with
      | nil => rfl
      | cons f rest2 =>
        simp at hlen
        omega

/-- C2 witness: on the singleton input the engine returns the input unchanged,
for any merger list (here the empty one). -/
theorem merge_consecutive_events_identity_witness :
    merge_consecutive_events [Event.keyboard ⟨0, none, .press, .char 'a'⟩] []
      = [Event.keyboard ⟨0, none, .press, .char 'a'⟩] :=
  (merge_consecutive_events_is_last_only_fold
      [Event.keyboard ⟨0, none, .press, .char 'a'⟩] []).2 (by norm_num)

/-- C8 counterexample: the claim says every merger returns a non-merging pair
in chronological order (earlier timestamp first) for all type combinations.
The snapshot merger (simplify.py lines 23-27) never reorders: fed two keyboard
events in reverse chronological order (t=5 then t=3) — a pair outside its
applicability, hence not merged — it returns them in the given order, the
later event first. -/
theorem nonmerging_pair_not_reordered :
    drop_consecutive_state_snapshots_1
        (.keyboard ⟨5, none, .press, .char 'a'⟩)
        (.keyboard ⟨3, none, .release, .char 'a'⟩)
      = [.keyboard ⟨5, none, .press, .char 'a'⟩,
         .keyboard ⟨3, none, .release, .char 'a'⟩]
    ∧ (3 : Time) < 5 :=
  ⟨rfl, by norm_num⟩

/-- C8 amended: every merger that reaches its comparison stage (both events of
the merger's type) does normalize: on two events of its type its output is
either the chronologically ordered pair `[f, s]` (earliest first) or the
single merged event — stated below for the press-then-release, multi-click,
key-press-to-write, write-merge and scroll mergers.  But on a type-mismatched
pair every merger returns the events in the *given* order, unchanged, and the
snapshot merger returns every non-snapshot-pair in the given order — no
chronological reordering there. -/
theorem unmerged_pairs_order :
    (∀ (a b : MouseButtonLike) (max_seconds : ℚ) (max_pixels : ℕ)
        (f s : MouseButtonLike),
      f = (if a.timestamp > b.timestamp then b else a) →
      s = (if a.timestamp > b.timestamp then a else b) →
      f.timestamp ≤ s.timestamp
      ∧ (merge_consecutive_mouse_press_then_release_to_click a.toEvent b.toEvent
            max_seconds max_pixels = [f.toEvent, s.toEvent]
        ∨ merge_consecutive_mouse_press_then_release_to_click a.toEvent b.toEvent
            max_seconds max_pixels
            = [.click (ClickEvent.from_mouse_button_event f)]))
    ∧ (∀ (a b : MouseButtonLike) (max_seconds : ℚ) (max_pixels : ℕ)
        (f s : MouseButtonLike),
      f = (if a.timestamp > b.timestamp then b else a) →
      s = (if a.timestamp > b.timestamp then a else b) →
      f.timestamp ≤ s.timestamp
      ∧ (merge_consecutive_mouse_clicks_to_multi_click a.toEvent b.toEvent
            max_seconds max_pixels = [f.toEvent, s.toEvent]
        ∨ merge_consecutive_mouse_clicks_to_multi_click a.toEvent b.toEvent
            max_seconds max_pixels
            = [.click ((ClickEvent.from_mouse_button_event f).update_with
                (ClickEvent.from_mouse_button_event s))]))
    ∧ (∀ (a b : KeyboardEvent) (max_seconds : ℚ) (f s : KeyboardEvent),
      f = (if a.timestamp > b.timestamp then b else a) →
      s = (if a.timestamp > b.timestamp then a else b) →
      f.timestamp ≤ s.timestamp
      ∧ (merge_consecutive_key_press_then_release_to_write (.keyboard a) (.keyboard b)
            max_seconds = [.keyboard f, .keyboard s]
        ∨ merge_consecutive_key_press_then_release_to_write (.keyboard a) (.keyboard b)
            max_seconds = [.write (WriteEvent.from_keyboard_event f)]))
    ∧ (∀ (a b : WriteEvent) (max_seconds : ℚ) (f s : WriteEvent),
      f = (if a.timestamp > b.timestamp then b else a) →
      s = (if a.timestamp > b.timestamp then a else b) →
      f.timestamp ≤ s.timestamp
      ∧ (merge_consecutive_write_events_1 (.write a) (.write b) max_seconds
            = [.write f, .write s]
        ∨ merge_consecutive_write_events_1 (.write a) (.write b) max_seconds
            = [.write (f.update_with s)]))
    ∧ (∀ (a b : ScrollEvent) (max_seconds : ℚ) (max_pixels : ℕ) (dirs : Bool)
        (f s : ScrollEvent),
      f = (if a.timestamp > b.timestamp then b else a) →
      s = (if a.timestamp > b.timestamp then a else b) →
      f.timestamp ≤ s.timestamp
      ∧ (merge_consecutive_scroll_events (.scroll a) (.scroll b) max_seconds
            max_pixels dirs = [.scroll f, .scroll s]
        ∨ merge_consecutive_scroll_events (.scroll a) (.scroll b) max_seconds
            max_pixels dirs = [.scroll (f.update_with s)]))
    ∧ (∀ (x y : Event) (max_seconds : ℚ) (max_pixels : ℕ),
        x.as_mouse_button = none ∨ y.as_mouse_button = none →
        merge_consecutive_mouse_press_then_release_to_click x y max_seconds max_pixels
          = [x, y])
    ∧ (∀ (x y : Event) (max_seconds : ℚ) (max_pixels : ℕ),
        x.as_mouse_button = none ∨ y.as_mouse_button = none →
        merge_consecutive_mouse_clicks_to_multi_click x y max_seconds max_pixels
          = [x, y])
    ∧ (∀ (x y : Event) (max_seconds : ℚ),
        x.is_keyboard = false ∨ y.is_keyboard = false →
        merge_consecutive_key_press_then_release_to_write x y max_seconds = [x, y])
    ∧ (∀ (x y : Event) (max_seconds : ℚ),
        x.is_write = false ∨ y.is_write = false →
        merge_consecutive_write_events_1 x y max_seconds = [x, y])
    ∧ (∀ (x y : Event) (max_seconds : ℚ) (max_pixels : ℕ) (dirs : Bool),
        x.is_scroll = false ∨ y.is_scroll = false →
        merge_consecutive_scroll_events x y max_seconds max_pixels dirs = [x, y])
    ∧ (∀ x y : Event,
        x.is_state_snapshot = false ∨ y.is_state_snapshot = false →
        drop_consecutive_state_snapshots_1 x y = [x, y]) := by
  refine ⟨?_, ?_, ?_, ?_, ?_, ?_, ?_, ?_, ?_, ?_, ?_⟩
  · intro a b max_seconds max_pixels f s hf hs
    constructor
    · subst hf hs
      by_cases hab : a.timestamp > b.timestamp
      · rw [if_pos hab, if_pos hab]
        exact le_of_lt hab
      · rw [if_neg hab, if_neg hab]
        exact le_of_not_lt hab
    · simp only [merge_consecutive_mouse_press_then_release_to_click,
        as_mouse_button_toEvent, ← hf, ← hs]
      by_cases hD : f.button ≠ s.button ∨ f.action ≠ .press ∨ s.action ≠ .release
          ∨ s.timestamp - f.last_timestamp_or_first > max_seconds
          ∨ distSq f.location s.location > (max_pixels : ℤ) ^ 2
      · rw [if_pos hD]
        exact Or.inl rfl
      · rw [if_neg hD]
        exact Or.inr rfl
  · intro a b max_seconds max_pixels f s hf hs
    constructor
    · subst hf hs
      by_cases hab : a.timestamp > b.timestamp
      · rw [if_pos hab, if_pos hab]
        exact le_of_lt hab
      · rw [if_neg hab, if_neg hab]
        exact le_of_not_lt hab
    · simp only [merge_consecutive_mouse_clicks_to_multi_click,
        as_mouse_button_toEvent, ← hf, ← hs]
      by_cases hD : f.button ≠ s.button ∨ f.action ≠ .click ∨ s.action ≠ .click
          ∨ s.timestamp - f.last_timestamp_or_first > max_seconds
          ∨ distSq f.location s.location > (max_pixels : ℤ) ^ 2
      · rw [if_pos hD]
        exact Or.inl rfl
      · rw [if_neg hD]
        exact Or.inr rfl
  · intro a b max_seconds f s hf hs
    constructor
    · subst hf hs
      by_cases hab : a.timestamp > b.timestamp
      · rw [if_pos hab, if_pos hab]
        exact le_of_lt hab
      · rw [if_neg hab, if_neg hab]
        exact le_of_not_lt hab
    · simp only [merge_consecutive_key_press_then_release_to_write, ← hf, ← hs]
      by_cases hD : s.timestamp - f.last_timestamp_or_first > max_seconds
          ∨ f.key ≠ s.key ∨ f.action ≠ .press ∨ s.action ≠ .release
      · rw [if_pos hD]
        exact Or.inl rfl
      · rw [if_neg hD]
        exact Or.inr rfl
  · intro a b max_seconds f s hf hs
    constructor
    · subst hf hs
      by_cases hab : a.timestamp > b.timestamp
      · rw [if_pos hab, if_pos hab]
        exact le_of_lt hab
      · rw [if_neg hab, if_neg hab]
        exact le_of_not_lt hab
    · simp only [merge_consecutive_write_events_1, ← hf, ← hs]
      by_cases hD : s.timestamp - f.last_timestamp_or_first > max_seconds
      · rw [if_pos hD]
        exact Or.inl rfl
      · rw [if_neg hD]
        exact Or.inr rfl
  · intro a b max_seconds max_pixels dirs f s hf hs
    constructor
    · subst hf hs
      by_cases hab : a.timestamp > b.timestamp
      · rw [if_pos hab, if_pos hab]
        exact le_of_lt hab
      · rw [if_neg hab, if_neg hab]
        exact le_of_not_lt hab
    · simp only [merge_consecutive_scroll_events, ← hf, ← hs]
      by_cases hG : s.timestamp - f.last_timestamp_or_first > max_seconds
          ∨ distSq f.location s.location > (max_pixels : ℤ) ^ 2
      · rw [if_pos hG]
        exact Or.inl rfl
      · rw [if_neg hG]
        by_cases hc : (dirs : Prop)
            ∨ (axis_is_compatible f.scroll.dx s.scroll.dx
              ∧ axis_is_compatible f.scroll.dy s.scroll.dy)
        · rw [if_pos hc]
          exact Or.inr rfl
        · rw [if_neg hc]
          exact Or.inl rfl
  · intro x y max_seconds max_pixels h
    cases hx : x.as_mouse_button with
    | none => simp [merge_consecutive_mouse_press_then_release_to_click, hx]
    | some a =>
      cases hy : y.as_mouse_button with
      | none => simp [merge_consecutive_mouse_press_then_release_to_click, hx, hy]
      | some b => rcases h with h | h <;> simp_all
  · intro x y max_seconds max_pixels h
    cases hx : x.as_mouse_button with
    | none => simp [merge_consecutive_mouse_clicks_to_multi_click, hx]
    | some a =>
      cases hy : y.as_mouse_button with
      | none => simp [merge_consecutive_mouse_clicks_to_multi_click, hx, hy]
      | some b => rcases h with h | h <;> simp_all
  · intro x y max_seconds h
    cases x <;> cases y <;>
      simp_all [merge_consecutive_key_press_then_release_to_write, Event.is_keyboard]
  · intro x y max_seconds h
    cases x <;> cases y <;>
      simp_all [merge_consecutive_write_events_1, Event.is_write]
  · intro x y max_seconds max_pixels dirs h
    cases x <;> cases y <;>
      simp_all [merge_consecutive_scroll_events, Event.is_scroll]
  · intro x y h
    cases x <;> cases y <;>
      simp_all [drop_consecutive_state_snapshots_1, Event.is_state_snapshot]

/-- C8 witness: a keyboard event handed to the press-then-release merger with
a write event (a type mismatch) comes back as the unchanged given pair. -/
theorem unmerged_pairs_order_witness :
    merge_consecutive_mouse_press_then_release_to_click
        (.keyboard ⟨5, none, .press, .char 'a'⟩) (.write ⟨3, none, [], none⟩) 1 5
      = [.keyboard ⟨5, none, .press, .char 'a'⟩, .write ⟨3, none, [], none⟩] :=
  unmerged_pairs_order.2.2.2.2.2.1
    (.keyboard ⟨5, none, .press, .char 'a'⟩) (.write ⟨3, none, [], none⟩) 1 5
    (Or.inl rfl)

/-! Frame lemmas for the store-level mergers (claim C9). -/

lemma Store.grows_alloc_write (A : Store) {st : Store} (hA : A.grows st)
    (v w : Event) :
    ((A.alloc v).1.write_at (A.alloc v).2 w).grows st := by
  have h1 : (A.alloc v).1.grows st := Store.grows_trans (Store.grows_alloc A v) hA
  exact Store.grows_write_at h1 hA.1 w

lemma drop1_store_grows (st : Store) (i j : ℕ) :
    (drop_consecutive_state_snapshots_1_store st i j).1.grows st := by
  simp only [drop_consecutive_state_snapshots_1_store]
  split <;> exact Store.grows_refl st

lemma press_release_store_grows (st : Store) (i j : ℕ) (ms : ℚ) (mp : ℕ) :
    (merge_press_then_release_store st i j ms mp).1.grows st := by
  simp only [merge_press_then_release_store]
  repeat' split
  all_goals first
    | exact Store.grows_refl st
    | exact Store.grows_alloc st _

lemma multi_click_store_grows (st : Store) (i j : ℕ) (ms : ℚ) (mp : ℕ) :
    (merge_clicks_to_multi_click_store st i j ms mp).1.grows st := by
  simp only [merge_clicks_to_multi_click_store]
  repeat' split
  all_goals first
    | exact Store.grows_refl st
    | exact Store.grows_alloc st _
    | exact Store.grows_alloc_write _ (Store.grows_refl st) _ _
    | exact Store.grows_alloc_write _ (Store.grows_alloc st _) _ _
    | exact Store.grows_alloc_write _
        (Store.grows_trans (Store.grows_alloc _ _) (Store.grows_alloc st _)) _ _

lemma key_press_store_grows (st : Store) (i j : ℕ) (ms : ℚ) :
    (merge_key_press_then_release_store st i j ms).1.grows st := by
  simp only [merge_key_press_then_release_store]
  repeat' split
  all_goals first
    | exact Store.grows_refl st
    | exact Store.grows_alloc_write _ (Store.grows_refl st) _ _

lemma write_store_grows (st : Store) (i j : ℕ) (ms : ℚ) :
    (merge_write_events_store st i j ms).1.grows st := by
  simp only [merge_write_events_store]
  repeat' split
  all_goals first
    | exact Store.grows_refl st
    | exact Store.grows_alloc_write _ (Store.grows_refl st) _ _

lemma scroll_store_grows (st : Store) (i j : ℕ) (ms : ℚ) (mp : ℕ) (dirs : Bool) :
    (merge_scroll_events_store st i j ms mp dirs).1.grows st := by
  simp only [merge_scroll_events_store]
  repeat' split
  all_goals first
    | exact Store.grows_refl st
    | exact Store.grows_alloc_write _ (Store.grows_refl st) _ _

/-- C9: non-mutation.  Rendered over an explicit object store (pydantic
`.copy()`/constructor calls allocate, `update_with` writes its receiver in
place), every merger leaves every pre-existing object — in particular both
argument events — dereferencing to exactly its pre-call value: copies and
freshly constructed events are the only objects ever written. -/
theorem mergers_do_not_mutate_inputs
    (st : Store) (i j k : ℕ) (max_seconds : ℚ) (max_pixels : ℕ)
    (merge_opposite_directions : Bool) (hk : k < st.objs.length) :
    (drop_consecutive_state_snapshots_1_store st i j).1.get k = st.get k
    ∧ (merge_press_then_release_store st i j max_seconds max_pixels).1.get k
        = st.get k
    ∧ (merge_clicks_to_multi_click_store st i j max_seconds max_pixels).1.get k
        = st.get k
    ∧ (merge_key_press_then_release_store st i j max_seconds).1.get k = st.get k
    ∧ (merge_write_events_store st i j max_seconds).1.get k = st.get k
    ∧ (merge_scroll_events_store st i j max_seconds max_pixels
        merge_opposite_directions).1.get k = st.get k :=
  ⟨(drop1_store_grows st i j).2 k hk,
   (press_release_store_grows st i j max_seconds max_pixels).2 k hk,
   (multi_click_store_grows st i j max_seconds max_pixels).2 k hk,
   (key_press_store_grows st i j max_seconds).2 k hk,
   (write_store_grows st i j max_seconds).2 k hk,
   (scroll_store_grows st i j max_seconds max_pixels merge_opposite_directions).2 k hk⟩

/-- C9 witness: in a store holding two mergeable write events, after the write
merger runs (it merges, allocating a deep copy and updating it), the first
original object still dereferences to its original value. -/
theorem mergers_do_not_mutate_inputs_witness :
    (merge_write_events_store
        ⟨[.write ⟨0, none, [.char 'a'], none⟩, .write ⟨1, none, [.char 'b'], none⟩]⟩
        0 1 2).1.get 0
      = some (.write ⟨0, none, [.char 'a'], none⟩) :=
  (mergers_do_not_mutate_inputs
      ⟨[.write ⟨0, none, [.char 'a'], none⟩, .write ⟨1, none, [.char 'b'], none⟩]⟩
      0 1 0 2 5 false (by norm_num)).2.2.2.2.1.trans rfl

end DonkeySee
